import Mathlib

/-!
Verification of the PhotoUploader upload engine against its specification.

The definitions below are shallow embeddings of the Python sources:
  - config.py : CHUNK_SIZE, MAX_RETRIES, PROGRESS_UPDATE_THRESHOLD, ALLOWED_EXTENSIONS
  - dropbox_uploader.py : upload_file (retry loop), _upload_chunked (chunked
    session protocol), create_folder
  - utils.py : scan_folder, validate_site_id
  - main.py : _upload_thread (the parallel upload coordinator's completion loop)

Remote calls and the filesystem are modelled by explicit outcome parameters:
whatever the claims quantify over (per-attempt remote outcomes, file sizes,
directory contents, task results) becomes an argument of the embedded function.
-/

namespace PhotoUploader

/-- Upload chunk size from config.py line 42: 8 MiB. -/
def CHUNK_SIZE : Nat := 8 * 1024 * 1024

/-- Maximum upload attempts per file, config.py line 43. -/
def MAX_RETRIES : Nat := 3

/-- Progress webhook threshold in percentage points, config.py line 45. -/
def PROGRESS_UPDATE_THRESHOLD : Nat := 25

/-- Tests whether pat is a leading segment of l. -/
def beginsWith : List Char → List Char → Bool
  | _, [] => true
  | [], _ :: _ => false
  | c :: l, p :: pat => c == p && beginsWith l pat

/-- Tests whether pat occurs as a contiguous sublist of l. -/
def hasSubList : List Char → List Char → Bool
  | [], pat => beginsWith [] pat
  | c :: l, pat => beginsWith (c :: l) pat || hasSubList l pat

/-- Substring test modelling the Python expression "pat in s". -/
def strContains (s pat : String) : Bool := hasSubList s.data pat.data

/-- ASCII lowercasing modelling str.lower() on the strings the program meets
(file extensions and error texts are ASCII). -/
def lowerString (s : String) : String := String.mk (s.data.map Char.toLower)

/-! ## Retry policy: dropbox_uploader.upload_file (lines 89-139)

One attempt of the retry loop runs the try-block of lines 105-123.  What the
remote side / local IO does during attempt i is an input of the model. -/

/-- Outcome of the remote upload machinery on one attempt: the call succeeds,
raises a dropbox ApiError whose str() is msg, or raises some other exception
(transport error, OSError from open, ...). -/
inductive RemoteOutcome where
  | ok
  | apiError (msg : String)
  | exn
deriving DecidableEq

/-- What the try-block of upload_file (lines 105-123) does on one attempt, as
seen by the retry loop.  For a small file (size ≤ CHUNK_SIZE) the single-shot
files_upload call propagates its exception to the handlers at lines 125-137.
For a large file the body is `return self._upload_chunked(...)` (line 123) and
_upload_chunked wraps everything in `except Exception` (lines 179-181), so no
ApiError ever reaches the retry loop's handler: every failing outcome turns
into a plain `return False` from that attempt. -/
inductive AttemptEvent where
  | success
  | apiRaised (msg : String)
  | exnRaised
  | chunkedCaught
deriving DecidableEq

/-- Translate a remote outcome into the attempt event the retry loop observes,
depending on whether the file takes the chunked path (isLarge). -/
def attemptEvent (isLarge : Bool) : RemoteOutcome → AttemptEvent
  | .ok => .success
  | .apiError msg => if isLarge then .chunkedCaught else .apiRaised msg
  | .exn => if isLarge then .chunkedCaught else .exnRaised

/-- The retry loop of upload_file, lines 104-139.  Arguments: the event of each
attempt, the current attempt index i, and the number of loop iterations left
(entered with i = 0 and MAX_RETRIES iterations).  Returns the boolean result
together with the number of attempts actually consumed.
  - success: `return True` (lines 119 / 177 via 123);
  - chunkedCaught: line 123 returns _upload_chunked's False directly;
  - exnRaised: `except Exception` at lines 135-137 returns False;
  - apiRaised: lines 125-133 - terminal if the text contains not_found,
    otherwise retry unless this was the last attempt (i = MAX_RETRIES - 1).
The fuel-0 base case is the fall-through `return False` of line 139. -/
def uploadLoop (ev : Nat → AttemptEvent) : Nat → Nat → Bool × Nat
  | _, 0 => (false, 0)
  | i, fuel + 1 =>
    match ev i with
    | .success => (true, 1)
    | .chunkedCaught => (false, 1)
    | .exnRaised => (false, 1)
    | .apiRaised msg =>
      if strContains msg "not_found" then (false, 1)
      else if i = MAX_RETRIES - 1 then (false, 1)
      else
        ((uploadLoop ev (i + 1) fuel).1, (uploadLoop ev (i + 1) fuel).2 + 1)

/-- upload_file (dropbox_uploader.py lines 89-139) for a file of size S whose
attempt-i remote machinery behaves as remote i.  Result and attempt count. -/
def upload_file (S : Nat) (remote : Nat → RemoteOutcome) : Bool × Nat :=
  uploadLoop (fun i => attemptEvent (decide (CHUNK_SIZE < S)) (remote i)) 0 MAX_RETRIES

/-! ## Chunked session protocol: _upload_chunked (lines 141-181)

The happy-path trace of remote operations for a file of size S with chunk size
C.  Each constructor corresponds to exactly one `file_obj.read(CHUNK_SIZE)`
followed by one remote call, and carries the number of bytes of that chunk.
A sessionAppend additionally records the value stored into cursor.offset right
after the call (line 164: `cursor.offset = file_obj.tell()`). -/

inductive ChunkOp where
  | sessionStart (bytes : Nat)
  | sessionAppend (bytes offset : Nat)
  | sessionFinish (bytes : Nat)
deriving DecidableEq

/-- The while-loop of lines 158-174: pos is the file position (file_obj.tell());
each iteration reads min C (S - pos) bytes and either appends (more data left)
or finishes (read pointer reached S).  The loop runs while pos < S; each
iteration advances pos by at least one byte (for C > 0), so S units of fuel
always suffice; the fuel argument only makes the recursion structural. -/
def chunkedLoop (C S : Nat) : Nat → Nat → List ChunkOp
  | 0, _ => []
  | fuel + 1, pos =>
    if pos < S then
      if pos + min C (S - pos) < S then
        ChunkOp.sessionAppend (min C (S - pos)) (pos + min C (S - pos)) ::
          chunkedLoop C S fuel (pos + min C (S - pos))
      else
        [ChunkOp.sessionFinish (min C (S - pos))]
    else []

/-- Full operation trace of _upload_chunked: the first chunk (line 146) goes to
files_upload_session_start (line 147), the cursor is created with
offset = file_obj.tell() (lines 149-152), then the loop runs. -/
def uploadChunkedTrace (C S : Nat) : List ChunkOp :=
  ChunkOp.sessionStart (min C S) :: chunkedLoop C S S (min C S)

/-- Remote calls of one attempt of upload_file (lines 107-123): a single
files_upload for S ≤ C, the chunked session trace otherwise. -/
inductive UploadOp where
  | filesUpload (bytes : Nat)
  | sessionOp (op : ChunkOp)
deriving DecidableEq

/-- Trace of storage-backend calls of one (successful) attempt. -/
def uploadCallTrace (C S : Nat) : List UploadOp :=
  if S ≤ C then [UploadOp.filesUpload S]
  else (uploadChunkedTrace C S).map UploadOp.sessionOp

/-- Ceiling division, the spec's ceil(S/C). -/
def ceilDiv (a b : Nat) : Nat := (a + b - 1) / b

/-- Number of session-start operations in a trace. -/
def countStart (ops : List ChunkOp) : Nat :=
  ops.countP fun op => match op with | ChunkOp.sessionStart _ => true | _ => false

/-- Number of append operations in a trace. -/
def countAppend (ops : List ChunkOp) : Nat :=
  ops.countP fun op => match op with | ChunkOp.sessionAppend _ _ => true | _ => false

/-- Number of finish operations in a trace. -/
def countFinish (ops : List ChunkOp) : Nat :=
  ops.countP fun op => match op with | ChunkOp.sessionFinish _ => true | _ => false

/-- True when the last operation of a non-empty trace is a session finish. -/
def lastIsFinish : List ChunkOp → Bool
  | [] => false
  | [op] => match op with | ChunkOp.sessionFinish _ => true | _ => false
  | _ :: op :: rest => lastIsFinish (op :: rest)

/-- Bytes read from the file for one operation of the trace. -/
def opBytes : ChunkOp → Nat
  | .sessionStart n => n
  | .sessionAppend n _ => n
  | .sessionFinish n => n

/-- Checks that the offset recorded after each append equals the cumulative
number of bytes read from the file up to and including that append's chunk;
readSoFar is the running total of bytes read before the current operation. -/
def goodOffsets : Nat → List ChunkOp → Bool
  | _, [] => true
  | readSoFar, op :: rest =>
    (match op with
     | ChunkOp.sessionAppend _ off => decide (off = readSoFar + opBytes op)
     | _ => true) && goodOffsets (readSoFar + opBytes op) rest

/-- The successive values held by cursor.offset over the session's lifetime:
its initial value at cursor creation (file_obj.tell() after the first chunk,
which the sessionStart op carries) followed by the value recorded after each
append. -/
def cursorOffsets (ops : List ChunkOp) : List Nat :=
  ops.filterMap fun op =>
    match op with
    | ChunkOp.sessionStart n => some n
    | ChunkOp.sessionAppend _ off => some off
    | ChunkOp.sessionFinish _ => none

/-! ## Parallel upload coordinator: main._upload_thread (lines 776-841)

The completion-processing loop (lines 800-841) is modelled as a fold over the
list of task results in completion order.  Concurrency is irrelevant to the
claims: every mutation happens in the single coordinator loop. -/

/-- Result of one task's future: upload_file returned True, returned False, or
future.result() raised (the except branch at lines 837-841). -/
inductive TaskOutcome where
  | ok
  | err
  | exn
deriving DecidableEq

/-- One upload task: its file size and how its future completes. -/
structure UTask where
  size : Nat
  outcome : TaskOutcome
deriving DecidableEq

/-- Coordinator state: completed_count, files_uploaded, files_failed,
bytes_uploaded, last_progress_update, and the list of progress webhook
notifications sent so far, each recorded as (completed_count, progress_percent). -/
structure CoordState where
  completed : Nat
  succeeded : Nat
  failed : Nat
  bytesUploaded : Nat
  lastNotified : Nat
  notes : List (Nat × Nat)
deriving DecidableEq

/-- The webhook block of lines 823-835: progress_percent is
int(completed / total * 100); for the batch sizes appearing in the claims the
Python float computation is exact, so it is modelled as floor division.  The
Python integer test progress_percent - last >= THRESHOLD is written as
last + THRESHOLD ≤ percent, which is the same comparison over integers. -/
def notifyStep (total : Nat) (st : CoordState) : CoordState :=
  let p := st.completed * 100 / total
  if st.lastNotified + PROGRESS_UPDATE_THRESHOLD ≤ p then
    { st with lastNotified := p, notes := st.notes ++ [(st.completed, p)] }
  else st

/-- Processing of one completed future, lines 803-841.  On ok: increment
files_uploaded and add the file's size to bytes_uploaded; on err: increment
files_failed; both then run the webhook block.  When future.result() raises,
the except branch (lines 837-841) increments files_failed and completed_count
and skips the webhook block. -/
def coordStep (total : Nat) (st : CoordState) (t : UTask) : CoordState :=
  match t.outcome with
  | .exn => { st with completed := st.completed + 1, failed := st.failed + 1 }
  | .ok => notifyStep total
      { st with completed := st.completed + 1, succeeded := st.succeeded + 1,
                bytesUploaded := st.bytesUploaded + t.size }
  | .err => notifyStep total
      { st with completed := st.completed + 1, failed := st.failed + 1 }

/-- State before any completion: counters zero (lines 744-747, 776-777). -/
def initState : CoordState := ⟨0, 0, 0, 0, 0, []⟩

/-- Final coordinator state after all completions of a batch. -/
def runBatch (tasks : List UTask) : CoordState :=
  tasks.foldl (coordStep tasks.length) initState

/-- All intermediate coordinator states of a batch, in order. -/
def batchTrace (tasks : List UTask) : List CoordState :=
  List.scanl (coordStep tasks.length) initState tasks

/-- The terminal webhook of lines 846-868: exactly one of notify_upload_complete
(failed == 0) and notify_upload_failed (failed > 0) fires, after the loop. -/
inductive FinalNote where
  | batchComplete
  | batchFailed
deriving DecidableEq

/-- Which terminal webhook a finished batch emits (lines 846-868). -/
def finalNotification (st : CoordState) : FinalNote :=
  if st.failed = 0 then FinalNote.batchComplete else FinalNote.batchFailed

/-- A batch of 10 tasks that all succeed, the scenario of claim C4. -/
def tenTasks : List UTask := List.replicate 10 ⟨1, TaskOutcome.ok⟩

/-! ## File discoverer: utils.scan_folder (lines 62-96) -/

/-- Photo extensions, config.py lines 51-74. -/
def PHOTO_EXTENSIONS : List String :=
  [".cr2", ".cr3", ".nef", ".nrw", ".arw", ".srf", ".sr2", ".dng", ".orf",
   ".rw2", ".pef", ".ptx", ".raf", ".jpg", ".jpeg", ".png", ".tif", ".tiff",
   ".webp"]

/-- Video extensions, config.py lines 79-95. -/
def VIDEO_EXTENSIONS : List String :=
  [".mp4", ".mov", ".avi", ".mkv", ".mts", ".m2ts", ".m4v", ".wmv", ".flv",
   ".webm", ".3gp", ".mpg", ".mpeg"]

/-- Union of the two sets, config.py line 98. -/
def ALLOWED_EXTENSIONS : List String := PHOTO_EXTENSIONS ++ VIDEO_EXTENSIONS

/-- One candidate file found by os.walk: its suffix as computed by
Path(filename).suffix (case preserved) and its size in bytes. -/
structure FsEntry where
  ext : String
  size : Nat
deriving DecidableEq

/-- The folder argument of scan_folder: whether the path exists, whether it is
a directory, and the candidate files the os.walk of lines 80-81 yields. -/
structure FolderArg where
  present : Bool
  isDir : Bool
  entries : List FsEntry
deriving DecidableEq

/-- Body of the loop at lines 81-93: lowercase the extension (line 83), keep
the file only if the extension is allow-listed (line 85) and the size strictly
exceeds 100 KiB (line 89), accumulating the accepted list and the total size. -/
def scanStep (acc : List FsEntry × Nat) (f : FsEntry) : List FsEntry × Nat :=
  if ALLOWED_EXTENSIONS.contains (lowerString f.ext) then
    if 100 * 1024 < f.size then (acc.1 ++ [f], acc.2 + f.size) else acc
  else acc

deriving instance DecidableEq for Except

/-- scan_folder, utils.py lines 62-96: ValueError when the path does not exist
or is not a directory (lines 74-78), otherwise the accepted files and their
total size. -/
def scan_folder (folder : FolderArg) : Except String (List FsEntry × Nat) :=
  if folder.present = false then Except.error "Folder does not exist"
  else if folder.isDir = false then Except.error "Path is not a folder"
  else Except.ok (folder.entries.foldl scanStep ([], 0))

/-- The acceptance test of lines 85 and 89 as a single predicate: allow-listed
lowercase extension and size strictly above 100 KiB. -/
def scanPred (f : FsEntry) : Bool :=
  ALLOWED_EXTENSIONS.contains (lowerString f.ext) && decide (100 * 1024 < f.size)

/-! ## Folder creation: dropbox_uploader.create_folder (lines 183-194) -/

/-- What files_create_folder_v2 does: succeeds, or raises an ApiError whose
str() is msg.  Exceptions other than ApiError are not caught by create_folder
and propagate, so they are outside this model's domain. -/
inductive FolderCallResult where
  | ok
  | apiError (msg : String)
deriving DecidableEq

/-- create_folder, lines 183-194: True on success; on ApiError, True exactly
when the error text contains conflict (folder already exists), else False. -/
def create_folder : FolderCallResult → Bool
  | .ok => true
  | .apiError msg => if strContains msg "conflict" then true else false

/-! ## Site id validation: utils.validate_site_id (lines 111-117) -/

/-- validate_site_id, utils.py lines 111-117.  The Python test `not site_id`
on a string is exactly the length-zero test. -/
def validate_site_id (s : String) : Bool :=
  if s.length == 0 then false
  else if s.length < 2 || 20 < s.length then false
  else true

/-! ## Theorems -/

/-- The webhook block never changes files_uploaded. -/
lemma notifyStep_succeeded (total : Nat) (st : CoordState) :
    (notifyStep total st).succeeded = st.succeeded := by
  unfold notifyStep; dsimp only; split <;> rfl

/-- The webhook block never changes files_failed. -/
lemma notifyStep_failed (total : Nat) (st : CoordState) :
    (notifyStep total st).failed = st.failed := by
  unfold notifyStep; dsimp only; split <;> rfl

/-- The webhook block never changes bytes_uploaded. -/
lemma notifyStep_bytes (total : Nat) (st : CoordState) :
    (notifyStep total st).bytesUploaded = st.bytesUploaded := by
  unfold notifyStep; dsimp only; split <;> rfl

/-- Folding the completion loop over any suffix of tasks adds one completion
per task to succeeded + failed and the sizes of the ok tasks to the byte
counter. -/
lemma foldl_coordStep_counts (total : Nat) :
    ∀ (ts : List UTask) (st : CoordState),
      ((ts.foldl (coordStep total) st).succeeded + (ts.foldl (coordStep total) st).failed
        = st.succeeded + st.failed + ts.length) ∧
      ((ts.foldl (coordStep total) st).bytesUploaded
        = st.bytesUploaded + ((ts.filter (fun t => t.outcome == TaskOutcome.ok)).map UTask.size).sum)
  | [], st => by simp
  | t :: ts, st => by
    have ih := foldl_coordStep_counts total ts (coordStep total st t)
    cases h : t.outcome <;>
      simp only [coordStep, h, notifyStep_succeeded, notifyStep_failed, notifyStep_bytes] at ih <;>
      simp only [List.foldl_cons, List.filter_cons, coordStep, h, List.length_cons,
        beq_iff_eq, reduceCtorEq, if_false, if_true, List.map_cons, List.sum_cons] at ih ⊢ <;>
      omega

/-- C6: after all completions of a batch are processed, succeeded plus failed
equals the number of tasks, and the cumulative byte counter equals the sum of
the sizes of the tasks that succeeded (main.py lines 776-841). -/
theorem C6_aggregate_consistency (tasks : List UTask) :
    (runBatch tasks).succeeded + (runBatch tasks).failed = tasks.length ∧
    (runBatch tasks).bytesUploaded
      = ((tasks.filter (fun t => t.outcome == TaskOutcome.ok)).map UTask.size).sum := by
  have h := foldl_coordStep_counts tasks.length tasks initState
  simpa [runBatch, initState] using h

/-- One completion either leaves last_progress_update unchanged or raises it by
at least the threshold (main.py lines 823-835). -/
lemma coordStep_lastNotified (total : Nat) (st : CoordState) (t : UTask) :
    (coordStep total st t).lastNotified = st.lastNotified ∨
      st.lastNotified + PROGRESS_UPDATE_THRESHOLD ≤ (coordStep total st t).lastNotified := by
  cases h : t.outcome <;>
    simp only [coordStep, h] <;>
    first
      | exact Or.inl trivial
      | (unfold notifyStep
         dsimp only
         split
         · rename_i hle; exact Or.inr hle
         · exact Or.inl rfl)

/-- Chain' holds along every scanl trace of a step function whose single steps
respect the relation. -/
lemma chain'_scanl {α β : Type} (R : β → β → Prop) (f : β → α → β)
    (h : ∀ b a, R b (f b a)) : ∀ (l : List α) (b : β), List.Chain' R (List.scanl f b l)
  | [], b => by simp
  | a :: l, b => by
    have h2 := chain'_scanl R f h l (f b a)
    cases l with
    | nil => simpa using h b a
    | cons c l' =>
      simp only [List.scanl] at h2 ⊢
      exact List.Chain'.cons (h b a) h2

/-- C5: throughout a batch, last_progress_update is monotonically
non-decreasing, and every change to it is an increase of at least
PROGRESS_UPDATE_THRESHOLD (main.py lines 823-835, config.py line 45). -/
theorem C5_lastNotified_monotone (tasks : List UTask) :
    List.Chain'
      (fun s s' : CoordState =>
        s'.lastNotified = s.lastNotified ∨
          s.lastNotified + PROGRESS_UPDATE_THRESHOLD ≤ s'.lastNotified)
      (batchTrace tasks) :=
  chain'_scanl _ _ (fun st t => coordStep_lastNotified tasks.length st t) tasks initState

/-- C4 counterexample: with 10 files and threshold 25 the rule of main.py
lines 823-835 fires no progress notification at completion 8 or at completion
10, so the claimed firing pattern 3, 6, 8, 10 is wrong (after firing at 30%
and 60%, completion 8 gives a delta of only 20). -/
theorem C4_counterexample :
    (8, 80) ∉ (runBatch tenTasks).notes ∧
    (10, 100) ∉ (runBatch tenTasks).notes ∧
    (runBatch tenTasks).notes ≠ [(3, 30), (6, 60), (8, 80), (10, 100)] := by
  decide

/-- C4 amended: for a batch of 10 files with threshold 25, the notification
rule fires progress notifications exactly at completions 3 (30%), 6 (60%) and
9 (90%); no progress notification fires at 100%, and instead the terminal
webhook of lines 846-868 always fires exactly once for every batch (the
complete variant when no file failed, the failed variant otherwise),
regardless of threshold math. -/
theorem C4_amended_notifications :
    (runBatch tenTasks).notes = [(3, 30), (6, 60), (9, 90)] ∧
    finalNotification (runBatch tenTasks) = FinalNote.batchComplete ∧
    ∀ tasks : List UTask,
      finalNotification (runBatch tasks) = FinalNote.batchComplete ∨
      finalNotification (runBatch tasks) = FinalNote.batchFailed := by
  refine ⟨by decide, by decide, fun tasks => ?_⟩
  by_cases hf : (runBatch tasks).failed = 0 <;> simp [finalNotification, hf]

/-- C9: create_folder treats an already-existing folder (an ApiError whose
text contains conflict) as success, and any other ApiError as failure
(dropbox_uploader.py lines 183-194). -/
theorem C9_create_folder_idempotent :
    create_folder FolderCallResult.ok = true ∧
    ∀ msg : String,
      (strContains msg "conflict" = true → create_folder (FolderCallResult.apiError msg) = true) ∧
      (strContains msg "conflict" = false → create_folder (FolderCallResult.apiError msg) = false) := by
  refine ⟨rfl, fun msg => ⟨fun h => ?_, fun h => ?_⟩⟩ <;> simp [create_folder, h]

/-- C9 witness: concrete conflict and non-conflict error texts. -/
theorem C9_create_folder_idempotent_witness :
    strContains "ApiError CreateFolderError path conflict folder" "conflict" = true ∧
    create_folder (FolderCallResult.apiError "ApiError CreateFolderError path conflict folder") = true ∧
    strContains "ApiError insufficient_space" "conflict" = false ∧
    create_folder (FolderCallResult.apiError "ApiError insufficient_space") = false :=
  ⟨by decide,
   (C9_create_folder_idempotent.2 "ApiError CreateFolderError path conflict folder").1 (by decide),
   by decide,
   (C9_create_folder_idempotent.2 "ApiError insufficient_space").2 (by decide)⟩

/-- C10: validate_site_id accepts exactly the strings of non-zero length
between 2 and 20 characters, and nothing but the length matters
(utils.py lines 111-117). -/
theorem C10_validate_site_id_iff (s : String) :
    (validate_site_id s = true ↔ s.length ≠ 0 ∧ 2 ≤ s.length ∧ s.length ≤ 20) ∧
    ∀ t : String, s.length = t.length → validate_site_id s = validate_site_id t := by
  constructor
  · unfold validate_site_id
    by_cases h0 : s.length = 0
    · simp [h0]
    · by_cases h1 : s.length < 2 ∨ 20 < s.length
      · rcases h1 with h1 | h1 <;> simp [h0, h1]
      · push_neg at h1
        simp only [h0, Nat.not_lt.2 h1.1, Nat.not_lt.2 h1.2]
        simp [h0]
        omega
  · intro t h
    unfold validate_site_id
    rw [h]

/-- C10 witness: a concrete accepted identifier. -/
theorem C10_validate_site_id_iff_witness : validate_site_id "408N13" = true :=
  (C10_validate_site_id_iff "408N13").1.mpr (by decide)

/-- Ceiling division of a positive x that fits in one chunk is 1. -/
lemma ceilDiv_eq_one (b x : Nat) (hb : 0 < b) (h1 : 0 < x) (h2 : x ≤ b) :
    ceilDiv x b = 1 := by
  unfold ceilDiv
  have hle : 1 ≤ (x + b - 1) / b := (Nat.le_div_iff_mul_le hb).2 (by omega)
  have hlt : (x + b - 1) / b < 2 := (Nat.div_lt_iff_lt_mul hb).2 (by omega)
  omega

/-- Ceiling division peels off one full chunk. -/
lemma ceilDiv_step (b x : Nat) (hb : 0 < b) (h : b < x) :
    ceilDiv x b = ceilDiv (x - b) b + 1 := by
  unfold ceilDiv
  have h2 : x + b - 1 = (x - b + b - 1) + b := by omega
  rw [h2, Nat.add_div_right _ hb]

/-- Every trace operation is exactly one of start, append, finish. -/
lemma chunkOp_count_partition : ∀ ops : List ChunkOp,
    countStart ops + countAppend ops + countFinish ops = ops.length
  | [] => by simp [countStart, countAppend, countFinish]
  | op :: ops => by
    have ih := chunkOp_count_partition ops
    cases op <;>
      simp [countStart, countAppend, countFinish, List.countP_cons] at ih ⊢ <;>
      omega

/-- Main invariant of the chunked-upload loop (lines 158-174), by induction on
the fuel: starting at position pos < S with enough fuel, the loop performs
exactly ceil((S - pos)/C) reads (one operation each), ends with the one and
only finish, records after each append an offset equal to the cumulative bytes
read, and the recorded offsets never decrease. -/
lemma chunkedLoop_spec (C S : Nat) (hC : 0 < C) :
    ∀ (fuel pos : Nat), pos < S → S - pos ≤ fuel →
      (chunkedLoop C S fuel pos).length = ceilDiv (S - pos) C ∧
      lastIsFinish (chunkedLoop C S fuel pos) = true ∧
      countFinish (chunkedLoop C S fuel pos) = 1 ∧
      countStart (chunkedLoop C S fuel pos) = 0 ∧
      goodOffsets pos (chunkedLoop C S fuel pos) = true ∧
      List.Chain' (· ≤ ·) (pos :: cursorOffsets (chunkedLoop C S fuel pos))
  | 0, pos => by intro h1 h2; omega
  | fuel + 1, pos => by
    intro h1 h2
    by_cases hcase : pos + min C (S - pos) < S
    · have hn : min C (S - pos) = C := by omega
      have hq : chunkedLoop C S (fuel + 1) pos
          = ChunkOp.sessionAppend (min C (S - pos)) (pos + min C (S - pos)) ::
              chunkedLoop C S fuel (pos + min C (S - pos)) := by
        simp only [chunkedLoop]
        rw [if_pos h1, if_pos hcase]
      rw [hn] at hq hcase
      obtain ⟨ih1, ih2, ih3, ih4, ih5, ih6⟩ :=
        chunkedLoop_spec C S hC fuel (pos + C) hcase (by omega)
      rw [hq]
      refine ⟨?_, ?_, ?_, ?_, ?_, ?_⟩
      · simp only [List.length_cons, ih1]
        have hd : S - (pos + C) = S - pos - C := by omega
        rw [hd, ← ceilDiv_step C (S - pos) hC (by omega)]
      · rcases hl : chunkedLoop C S fuel (pos + C) with _ | ⟨op, rest⟩
        · rw [hl] at ih2; simp [lastIsFinish] at ih2
        · rw [hl] at ih2; simpa [lastIsFinish] using ih2
      · simp only [countFinish, List.countP_cons] at ih3 ⊢
        simp [ih3]
      · simp only [countStart, List.countP_cons] at ih4 ⊢
        simp [ih4]
      · simp only [goodOffsets, opBytes]
        simp [ih5]
      · simp only [cursorOffsets, List.filterMap_cons]
        exact List.Chain'.cons (by omega) ih6
    · have hn : min C (S - pos) = S - pos := by omega
      have hq : chunkedLoop C S (fuel + 1) pos
          = [ChunkOp.sessionFinish (min C (S - pos))] := by
        simp only [chunkedLoop]
        rw [if_pos h1, if_neg hcase]
      rw [hn] at hq
      rw [hq]
      refine ⟨?_, ?_, ?_, ?_, ?_, ?_⟩
      · simp only [List.length_singleton]
        exact (ceilDiv_eq_one C (S - pos) hC (by omega) (by omega)).symm
      · rfl
      · simp [countFinish]
      · simp [countStart]
      · simp [goodOffsets, opBytes]
      · simp [cursorOffsets]

/-- C3 counterexample: for chunk size C = CHUNK_SIZE and a file of size
S = CHUNK_SIZE + 1 the chunked trace holds zero appends and one finish while
ceil(S/C) = 2, so the claimed equation "appends plus exactly one finish equals
ceil(S/C)" is false: the first chunk is consumed by session-start, giving
appends + finish = ceil(S/C) - 1. -/
theorem C3_counterexample :
    countAppend (uploadChunkedTrace CHUNK_SIZE (CHUNK_SIZE + 1)) = 0 ∧
    countFinish (uploadChunkedTrace CHUNK_SIZE (CHUNK_SIZE + 1)) = 1 ∧
    ceilDiv (CHUNK_SIZE + 1) CHUNK_SIZE = 2 ∧
    countAppend (uploadChunkedTrace CHUNK_SIZE (CHUNK_SIZE + 1)) +
        countFinish (uploadChunkedTrace CHUNK_SIZE (CHUNK_SIZE + 1))
      ≠ ceilDiv (CHUNK_SIZE + 1) CHUNK_SIZE := by
  decide

/-- C3 amended: for S ≤ C exactly one single-shot call and zero session calls
occur; for S > C exactly ceil(S/C) chunk reads occur (the trace holds one
operation per read), the last operation is the single session-finish (never an
append), session-start occurs exactly once, and the number of appends plus the
one finish equals ceil(S/C) - 1 (the first chunk goes to session-start). -/
theorem C3_amended_chunk_counts (C S : Nat) (hC : 0 < C) :
    (S ≤ C → uploadCallTrace C S = [UploadOp.filesUpload S]) ∧
    (C < S →
      (uploadChunkedTrace C S).length = ceilDiv S C ∧
      lastIsFinish (uploadChunkedTrace C S) = true ∧
      countStart (uploadChunkedTrace C S) = 1 ∧
      countFinish (uploadChunkedTrace C S) = 1 ∧
      countAppend (uploadChunkedTrace C S) + countFinish (uploadChunkedTrace C S)
        = ceilDiv S C - 1) := by
  constructor
  · intro h
    simp [uploadCallTrace, h]
  · intro h
    have hmin : min C S = C := by omega
    obtain ⟨h1, h2, h3, h4, -, -⟩ :=
      chunkedLoop_spec C S hC S C (by omega) (by omega)
    have hstep : ceilDiv S C = ceilDiv (S - C) C + 1 := ceilDiv_step C S hC h
    have hpart := chunkOp_count_partition (chunkedLoop C S S C)
    constructor
    · simp only [uploadChunkedTrace, hmin, List.length_cons, h1]
      omega
    refine ⟨?_, ?_, ?_, ?_⟩
    · rcases hl : chunkedLoop C S S C with _ | ⟨op, rest⟩
      · rw [hl] at h3; simp [countFinish] at h3
      · rw [hl] at h2
        simpa [uploadChunkedTrace, hmin, hl, lastIsFinish] using h2
    · unfold countStart at h4 ⊢
      simp only [uploadChunkedTrace, hmin, List.countP_cons]
      simp [h4]
    · unfold countFinish at h3 ⊢
      simp only [uploadChunkedTrace, hmin, List.countP_cons]
      simp [h3]
    · have hca : countAppend (uploadChunkedTrace C S) = countAppend (chunkedLoop C S S C) := by
        simp [uploadChunkedTrace, hmin, countAppend, List.countP_cons]
      have hcf : countFinish (uploadChunkedTrace C S) = countFinish (chunkedLoop C S S C) := by
        simp [uploadChunkedTrace, hmin, countFinish, List.countP_cons]
      rw [hca, hcf]
      omega

/-- C3 witness: a small file in one shot, and a 5-byte file with 2-byte chunks
giving a trace of length ceil(5/2) = 3 with 1 append + 1 finish = 2. -/
theorem C3_amended_chunk_counts_witness :
    (0 < 4 ∧ (3 : Nat) ≤ 4 ∧ uploadCallTrace 4 3 = [UploadOp.filesUpload 3]) ∧
    (0 < 2 ∧ (2 : Nat) < 5 ∧ (uploadChunkedTrace 2 5).length = ceilDiv 5 2 ∧
      countAppend (uploadChunkedTrace 2 5) + countFinish (uploadChunkedTrace 2 5)
        = ceilDiv 5 2 - 1) :=
  ⟨⟨by decide, by decide, (C3_amended_chunk_counts 4 3 (by decide)).1 (by decide)⟩,
   ⟨by decide, by decide,
    ((C3_amended_chunk_counts 2 5 (by decide)).2 (by decide)).1,
    ((C3_amended_chunk_counts 2 5 (by decide)).2 (by decide)).2.2.2.2⟩⟩

/-- C7: within one chunked session, the offset recorded after each append
equals the cumulative bytes read from the file so far, and the cursor's
recorded offsets never decrease across the session's lifetime
(dropbox_uploader.py lines 146-171). -/
theorem C7_offset_invariant (C S : Nat) (hC : 0 < C) (hS : C < S) :
    goodOffsets 0 (uploadChunkedTrace C S) = true ∧
    List.Chain' (· ≤ ·) (cursorOffsets (uploadChunkedTrace C S)) := by
  have hmin : min C S = C := by omega
  obtain ⟨-, -, -, -, h5, h6⟩ := chunkedLoop_spec C S hC S C (by omega) (by omega)
  constructor
  · simp only [uploadChunkedTrace, hmin, goodOffsets, opBytes, Nat.zero_add]
    simp [h5]
  · simpa [uploadChunkedTrace, hmin, cursorOffsets, List.filterMap_cons] using h6

/-- C7 witness: a 7-byte file with 2-byte chunks; offsets 2, 4, 6 recorded. -/
theorem C7_offset_invariant_witness :
    (0 < 2 ∧ (2 : Nat) < 7) ∧
    goodOffsets 0 (uploadChunkedTrace 2 7) = true ∧
    List.Chain' (· ≤ ·) (cursorOffsets (uploadChunkedTrace 2 7)) :=
  ⟨⟨by decide, by decide⟩, C7_offset_invariant 2 7 (by decide) (by decide)⟩

/-- C1 counterexample: a large file (size CHUNK_SIZE + 1) whose every attempt
raises a retryable (non-not_found) remote-API error is attempted exactly once,
not MAX_RETRIES times: the error is swallowed inside _upload_chunked
(lines 179-181) and upload_file returns its False directly (line 123), so the
retry loop never sees the ApiError. -/
theorem C1_counterexample :
    strContains "too_many_requests" "not_found" = false ∧
    CHUNK_SIZE < CHUNK_SIZE + 1 ∧
    upload_file (CHUNK_SIZE + 1) (fun _ => RemoteOutcome.apiError "too_many_requests")
      = (false, 1) ∧
    (1 : Nat) ≠ MAX_RETRIES := by
  refine ⟨by decide, by omega, by decide, by decide⟩

/-- C1 amended: a first attempt that raises a remote-API error containing
not_found makes upload_file return False after exactly one attempt for every
file; a file of size ≤ CHUNK_SIZE (single-shot path) whose every attempt
raises a retryable remote-API error is attempted exactly MAX_RETRIES times and
then upload_file returns False, while a file of size > CHUNK_SIZE returns
False after exactly one attempt on any failure (the chunked path catches
everything); success on any attempt returns True immediately. -/
theorem C1_amended_retry_policy (S : Nat) (remote : Nat → RemoteOutcome) :
    (∀ msg, remote 0 = RemoteOutcome.apiError msg → strContains msg "not_found" = true →
      upload_file S remote = (false, 1)) ∧
    (S ≤ CHUNK_SIZE →
      (∀ i, i < MAX_RETRIES → ∃ msg, remote i = RemoteOutcome.apiError msg ∧
          strContains msg "not_found" = false) →
      upload_file S remote = (false, MAX_RETRIES)) ∧
    (CHUNK_SIZE < S → remote 0 ≠ RemoteOutcome.ok → upload_file S remote = (false, 1)) ∧
    (remote 0 = RemoteOutcome.ok → upload_file S remote = (true, 1)) ∧
    (S ≤ CHUNK_SIZE → ∀ i, i < MAX_RETRIES →
      (∀ j, j < i → ∃ msg, remote j = RemoteOutcome.apiError msg ∧
          strContains msg "not_found" = false) →
      remote i = RemoteOutcome.ok → upload_file S remote = (true, i + 1)) := by
  refine ⟨?_, ?_, ?_, ?_, ?_⟩
  · intro msg h0 hnf
    by_cases hL : CHUNK_SIZE < S
    · simp [upload_file, uploadLoop, MAX_RETRIES, h0, attemptEvent, hL]
    · simp [upload_file, uploadLoop, MAX_RETRIES, h0, attemptEvent, hL, hnf]
  · intro hS hAll
    obtain ⟨m0, h0, n0⟩ := hAll 0 (by norm_num [MAX_RETRIES])
    obtain ⟨m1, h1, n1⟩ := hAll 1 (by norm_num [MAX_RETRIES])
    obtain ⟨m2, h2, n2⟩ := hAll 2 (by norm_num [MAX_RETRIES])
    have hL : ¬ CHUNK_SIZE < S := by omega
    simp [upload_file, uploadLoop, MAX_RETRIES, attemptEvent, hL, h0, h1, h2, n0, n1, n2]
  · intro hL hne
    rcases h0 : remote 0 with _ | msg | _
    · exact absurd h0 hne
    · simp [upload_file, uploadLoop, MAX_RETRIES, attemptEvent, hL, h0]
    · simp [upload_file, uploadLoop, MAX_RETRIES, attemptEvent, hL, h0]
  · intro h0
    by_cases hL : CHUNK_SIZE < S <;>
      simp [upload_file, uploadLoop, MAX_RETRIES, attemptEvent, hL, h0]
  · intro hS i hi hearlier hok
    have hL : ¬ CHUNK_SIZE < S := by omega
    have hi3 : i < 3 := hi
    interval_cases i
    · simp [upload_file, uploadLoop, MAX_RETRIES, attemptEvent, hL, hok]
    · obtain ⟨m0, h0, n0⟩ := hearlier 0 (by omega)
      simp [upload_file, uploadLoop, MAX_RETRIES, attemptEvent, hL, h0, n0, hok]
    · obtain ⟨m0, h0, n0⟩ := hearlier 0 (by omega)
      obtain ⟨m1, h1, n1⟩ := hearlier 1 (by omega)
      simp [upload_file, uploadLoop, MAX_RETRIES, attemptEvent, hL, h0, n0, h1, n1, hok]

/-- C1 witness: a small file with a persistent retryable error consumes all
three attempts. -/
theorem C1_amended_retry_policy_witness :
    (5 : Nat) ≤ CHUNK_SIZE ∧
    upload_file 5 (fun _ => RemoteOutcome.apiError "too_many_write_operations")
      = (false, MAX_RETRIES) :=
  ⟨by decide,
   (C1_amended_retry_policy 5
       (fun _ => RemoteOutcome.apiError "too_many_write_operations")).2.1
     (by decide) (fun i _ => ⟨"too_many_write_operations", rfl, by decide⟩)⟩

/-- C2 counterexample: a small file whose first attempt raises a transport
exception (not an ApiError) returns False after exactly one attempt: the
handler at lines 135-137 returns immediately instead of retrying, so the claim
that any failure other than not_found is retried until MAX_RETRIES attempts
are exhausted is false. -/
theorem C2_counterexample :
    (5 : Nat) ≤ CHUNK_SIZE ∧
    upload_file 5 (fun _ => RemoteOutcome.exn) = (false, 1) ∧
    (1 : Nat) ≠ MAX_RETRIES ∧
    CHUNK_SIZE < CHUNK_SIZE + 2 ∧
    upload_file (CHUNK_SIZE + 2) (fun _ => RemoteOutcome.apiError "rate_limit_error")
      = (false, 1) := by
  refine ⟨by decide, by decide, by decide, by omega, by decide⟩

/-- C2 amended: only a remote-API error not containing not_found, raised in
the single-shot path (size ≤ CHUNK_SIZE), is retryable: upload_file then
retries the entire file from scratch while attempts remain and returns False
after MAX_RETRIES such attempts.  A transport exception in the single-shot
path, and any failure inside the chunked large-file path, make upload_file
return False after that single attempt. -/
theorem C2_amended_retryable_errors (S : Nat) (remote : Nat → RemoteOutcome) :
    (S ≤ CHUNK_SIZE →
      (∀ i, i < MAX_RETRIES → ∃ msg, remote i = RemoteOutcome.apiError msg ∧
          strContains msg "not_found" = false) →
      upload_file S remote = (false, MAX_RETRIES)) ∧
    (S ≤ CHUNK_SIZE →
      (∃ msg, remote 0 = RemoteOutcome.apiError msg ∧ strContains msg "not_found" = false) →
      remote 1 = RemoteOutcome.ok → upload_file S remote = (true, 2)) ∧
    (S ≤ CHUNK_SIZE → remote 0 = RemoteOutcome.exn → upload_file S remote = (false, 1)) ∧
    (CHUNK_SIZE < S → remote 0 ≠ RemoteOutcome.ok → upload_file S remote = (false, 1)) := by
  refine ⟨?_, ?_, ?_, ?_⟩
  · intro hS hAll
    obtain ⟨m0, h0, n0⟩ := hAll 0 (by norm_num [MAX_RETRIES])
    obtain ⟨m1, h1, n1⟩ := hAll 1 (by norm_num [MAX_RETRIES])
    obtain ⟨m2, h2, n2⟩ := hAll 2 (by norm_num [MAX_RETRIES])
    have hL : ¬ CHUNK_SIZE < S := by omega
    simp [upload_file, uploadLoop, MAX_RETRIES, attemptEvent, hL, h0, h1, h2, n0, n1, n2]
  · intro hS hex h1
    obtain ⟨m0, h0, n0⟩ := hex
    have hL : ¬ CHUNK_SIZE < S := by omega
    simp [upload_file, uploadLoop, MAX_RETRIES, attemptEvent, hL, h0, n0, h1]
  · intro hS h0
    have hL : ¬ CHUNK_SIZE < S := by omega
    simp [upload_file, uploadLoop, MAX_RETRIES, attemptEvent, hL, h0]
  · intro hL hne
    rcases h0 : remote 0 with _ | msg | _
    · exact absurd h0 hne
    · simp [upload_file, uploadLoop, MAX_RETRIES, attemptEvent, hL, h0]
    · simp [upload_file, uploadLoop, MAX_RETRIES, attemptEvent, hL, h0]

/-- Folding the discoverer loop accumulates exactly the files satisfying the
acceptance predicate, in order, together with the sum of their sizes. -/
lemma foldl_scanStep :
    ∀ (l : List FsEntry) (acc : List FsEntry) (t : Nat),
      l.foldl scanStep (acc, t)
        = (acc ++ l.filter scanPred, t + ((l.filter scanPred).map FsEntry.size).sum)
  | [], acc, t => by simp
  | f :: l, acc, t => by
    by_cases h1 : lowerString f.ext ∈ ALLOWED_EXTENSIONS
    · by_cases h2 : 100 * 1024 < f.size
      · simp [List.foldl_cons, scanStep, h1, h2, foldl_scanStep l, List.filter_cons,
          scanPred, List.append_assoc, Nat.add_assoc]
      · simp [List.foldl_cons, scanStep, h1, h2, foldl_scanStep l, List.filter_cons, scanPred]
    · simp [List.foldl_cons, scanStep, h1, foldl_scanStep l, List.filter_cons, scanPred]

/-- C8: for an existing directory, scan_folder accepts a candidate iff its
lowercase extension is allow-listed and its size exceeds 100 KiB, and returns
the accepted files with a total equal to the sum of their sizes; for a missing
path or a non-directory it fails with a validation error
(utils.py lines 62-96). -/
theorem C8_scan_folder_filter (folder : FolderArg) :
    (folder.present = true → folder.isDir = true →
      scan_folder folder
        = Except.ok (folder.entries.filter scanPred,
            ((folder.entries.filter scanPred).map FsEntry.size).sum) ∧
      ∀ f : FsEntry, f ∈ folder.entries.filter scanPred ↔
        (f ∈ folder.entries ∧
          ALLOWED_EXTENSIONS.contains (lowerString f.ext) = true ∧ 100 * 1024 < f.size)) ∧
    ((folder.present = false ∨ folder.isDir = false) →
      ∃ msg, scan_folder folder = Except.error msg) := by
  constructor
  · intro hp hd
    constructor
    · simp [scan_folder, hp, hd, foldl_scanStep]
    · intro f
      simp [List.mem_filter, scanPred, and_assoc]
  · intro h
    by_cases hp : folder.present = false
    · exact ⟨"Folder does not exist", by simp [scan_folder, hp]⟩
    · have hp' : folder.present = true := by
        revert hp; cases folder.present <;> simp
      have hd : folder.isDir = false := by
        rcases h with h | h
        · exact absurd h hp
        · exact h
      exact ⟨"Path is not a folder", by simp [scan_folder, hp', hd]⟩

/-- C8 witness: the spec's P4 folder - a 200001-byte .JPG (accepted, extension
lowercased), a 200001-byte .txt (wrong extension) and a 50000-byte .mp4 (too
small) - yields exactly the .JPG file and its size. -/
theorem C8_scan_folder_filter_witness :
    scan_folder ⟨true, true, [⟨".JPG", 200001⟩, ⟨".txt", 200001⟩, ⟨".mp4", 50000⟩]⟩
      = Except.ok ([⟨".JPG", 200001⟩], 200001) := by
  have h := ((C8_scan_folder_filter
      ⟨true, true, [⟨".JPG", 200001⟩, ⟨".txt", 200001⟩, ⟨".mp4", 50000⟩]⟩).1 rfl rfl).1
  rw [h]
  decide

/-- C2 witness: a small file failing once with a retryable error and
succeeding on the second attempt: the whole file is retried from scratch. -/
theorem C2_amended_retryable_errors_witness :
    (5 : Nat) ≤ CHUNK_SIZE ∧
    upload_file 5
        (fun i => if i = 0 then RemoteOutcome.apiError "rate_limit" else RemoteOutcome.ok)
      = (true, 2) :=
  ⟨by decide,
   (C2_amended_retryable_errors 5
       (fun i => if i = 0 then RemoteOutcome.apiError "rate_limit" else RemoteOutcome.ok)).2.1
     (by decide) ⟨"rate_limit", rfl, by decide⟩ rfl⟩

end PhotoUploader
